import Mathlib

set_option autoImplicit false

attribute [local semireducible] Rat.mul Rat.add Rat.sub Rat.inv

/-!
Shallow embedding of the pvanalytics data-shift detection core
(`pvanalytics/quality/data_shifts.py`) and of the cumulative-energy
helpers (`pvanalytics/features/cumulative_energy.py`).

Modelling conventions:
* A pandas timestamp is a `Date`: `t` is its absolute position measured in
  days (rational, so sub-daily spacings are representable), while `month`
  and `dom` are the calendar attributes `.month` and `.day` read by the
  seasonality grouping.  The code never needs the relation between them.
* Numeric values are rationals.  A float NaN produced by `0/0` during
  min-max normalization is modelled by `Option ℚ` with `none` for NaN
  (pandas elementwise division never raises; `x/0` with `x = 0` is NaN).
* A Python exception is an `Except PyErr` result; each raise site of the
  translated code has its own `PyErr` constructor.
* The `ruptures` changepoint library is an external dependency (it is not
  part of this repository); a search call `method(model=cost).fit(pts)
  .predict(pen)` is modelled as a black-box function parameter
  `engine : SearchCfg → List ℚ → List ℕ` receiving the resolved
  configuration and the NaN-dropped points.  Where a claim depends on the
  engine output, the theorem hypothesises the `ChangepointSet` contract the
  spec states for it (strictly increasing positions, never containing 0).
* `gaps.stale_values_round` lives in a module of the repository that is not
  part of the analysed sources; the stale mask is likewise a function
  parameter `stale : List (Date × ℚ) → List Bool` (positionally aligned),
  so every theorem holds for an arbitrary stale-value detector.
-/

namespace PVAnalytics

/-- A pandas timestamp: absolute position in days plus the calendar
attributes used by the seasonality groupby. -/
structure Date where
  t : ℚ
  month : Nat
  dom : Nat
deriving DecidableEq, Repr

/-- A pandas index: either a genuine `DatetimeIndex` or any other index
(e.g. the default `RangeIndex`), which only the type check looks at. -/
inductive PIndex where
  | dt (dates : List Date)
  | nonDt (n : Nat)
deriving DecidableEq, Repr

/-- A pandas Series as passed to the public entry points. -/
structure PySeries where
  idx : PIndex
  vals : List ℚ
deriving DecidableEq, Repr

/-- The datetime index of a series (empty for a non-datetime index, which
never reaches the code that uses it because the checks raise first). -/
def PySeries.dtDates : PySeries → List Date
  | ⟨.dt ds, _⟩ => ds
  | ⟨.nonDt _, _⟩ => []

/-- Length of the index. -/
def PySeries.idxLen : PySeries → Nat
  | ⟨.dt ds, _⟩ => ds.length
  | ⟨.nonDt n, _⟩ => n

/-- Well-formedness of a pandas Series: index and values are aligned. -/
def PySeries.WF (ts : PySeries) : Prop := ts.idxLen = ts.vals.length

instance (ts : PySeries) : Decidable ts.WF := by
  unfold PySeries.WF; infer_instance

/-- The series viewed as (timestamp, value) pairs. -/
def PySeries.pairs (ts : PySeries) : List (Date × ℚ) :=
  ts.dtDates.zip ts.vals

/-- Decidable equality of Python results, so concrete runs can be checked
by `decide`. -/
instance {ε α : Type} [DecidableEq ε] [DecidableEq α] :
    DecidableEq (Except ε α) := fun x y =>
  match x, y with
  | .error a, .error b =>
    match decEq a b with
    | isTrue hab => isTrue (by rw [hab])
    | isFalse hab => isFalse (by intro hh; cases hh; exact hab rfl)
  | .ok a, .ok b =>
    match decEq a b with
    | isTrue hab => isTrue (by rw [hab])
    | isFalse hab => isFalse (by intro hh; cases hh; exact hab rfl)
  | .error _, .ok _ => isFalse (by intro hh; cases hh)
  | .ok _, .error _ => isFalse (by intro hh; cases hh)

/-- One constructor per raise site of the translated Python code. -/
inductive PyErr where
  /-- The `TypeError` raised by `_run_data_checks` for a non-datetime index. -/
  | typeErrorNotDatetimeIndex
  /-- The `TypeError` raised when `method=None` is called in the custom branch. -/
  | typeErrorNoneNotCallable
  /-- The `TypeError` raised by the `bool | tuple` guard in `energy_cumulative`. -/
  | typeErrorBoolOrTuple
  /-- The `ValueError` raised by `_run_data_checks` for non-daily frequency. -/
  | valueErrorNotDaily
  /-- The `ValueError` raised by `idxmax` on an empty sequence. -/
  | valueErrorEmptyArgmax
  /-- The `UnboundLocalError` for the filtered-series local when `filtering=False`. -/
  | unboundLocalTimeSeriesFiltered
  /-- The `IndexError` from an out-of-bounds positional `iloc` assignment. -/
  | indexErrorIloc
  /-- The `KeyError` from `pct_over_zero[True]` when no entry is `True`. -/
  | keyErrorTrue
deriving DecidableEq, Repr

/-- The two errors `_run_data_checks` can raise (the fail-fast
preconditions of the daily data-shift detector). -/
def PyErr.isPrecondition : PyErr → Bool
  | .typeErrorNotDatetimeIndex => true
  | .valueErrorNotDaily => true
  | .valueErrorEmptyArgmax => true
  | _ => false

/-! ### Generic pandas helpers -/

/-- Insert into a sorted list of rationals. -/
def insertSorted (x : ℚ) : List ℚ → List ℚ
  | [] => [x]
  | y :: ys => if x ≤ y then x :: y :: ys else y :: insertSorted x ys

/-- Ascending sort, as used by quantile and median. -/
def sortQ (l : List ℚ) : List ℚ := l.foldr insertSorted []

/-- Minimum of a value list (only used on nonempty lists; pandas returns
NaN on an empty one and the callers below guard that case). -/
def minQ : List ℚ → ℚ
  | [] => 0
  | x :: xs => xs.foldl min x

/-- Maximum of a value list (same caveat as `minQ`). -/
def maxQ : List ℚ → ℚ
  | [] => 0
  | x :: xs => xs.foldl max x

/-- Model of `Series.quantile(q)` with the default linear interpolation:
with sorted values `v` and `h = q*(n-1)`, the result is
`v[⌊h⌋] + (h-⌊h⌋)*(v[⌊h⌋+1] - v[⌊h⌋])`; `none` on an empty series. -/
def quantileLinear (vs : List ℚ) (q : ℚ) : Option ℚ :=
  match sortQ vs with
  | [] => none
  | v :: vrest =>
    let s := v :: vrest
    let h : ℚ := q * ((s.length : ℚ) - 1)
    let lo : Nat := (⌊h⌋).toNat
    let frac : ℚ := h - (⌊h⌋ : ℚ)
    let a := s.getD lo 0
    let b := s.getD (lo + 1) a
    some (a + frac * (b - a))

/-- Median of a list of rationals (`none` on the empty list), as computed
by pandas: middle element, or mean of the two middle elements. -/
def medianQ (l : List ℚ) : Option ℚ :=
  match sortQ l with
  | [] => none
  | v :: vrest =>
    let s := v :: vrest
    let n := s.length
    if n % 2 = 1 then some (s.getD (n / 2) 0)
    else some ((s.getD (n / 2 - 1) 0 + s.getD (n / 2) 0) / 2)

/-- First element of maximal multiplicity: the result of
`value_counts().idxmax()`, with ties resolved in favour of the value
appearing first (order of first appearance). -/
def bestOf {α : Type} (count : α → Nat) : List α → Option α
  | [] => none
  | x :: xs =>
    match bestOf count xs with
    | none => some x
    | some y => if count y > count x then some y else some x

/-- Result of `value_counts().idxmax()` over a list. -/
def modeFirst {α : Type} [DecidableEq α] (l : List α) : Option α :=
  bestOf (fun a => l.count a) l

/-- Successive differences of a datetime index, in days
(`index.to_series().diff()` with the leading NaT dropped). -/
def diffsOf : List Date → List ℚ
  | [] => []
  | _ :: [] => []
  | a :: b :: rest => (b.t - a.t) :: diffsOf (b :: rest)

/-- The modal sampling interval of an index, in (fractional) days. -/
def inferredFreq (ds : List Date) : Option ℚ := modeFirst (diffsOf ds)

/-- True exactly when the modal interval has whole-day component
(`Timedelta.days`, i.e. its floor) equal to 1. -/
def freq_ok (ds : List Date) : Bool :=
  match inferredFreq ds with
  | none => false
  | some d => decide (⌊d⌋ = 1)

/-! ### data_shifts.py -/

/-- Model of `_run_data_checks`: raise `TypeError` for a non-datetime index; raise
`ValueError` when the modal index interval does not have `.days == 1`
(`idxmax` itself raising `ValueError` when there is no interval at all). -/
def run_data_checks (ts : PySeries) : Except PyErr Unit :=
  match ts.idx with
  | .nonDt _ => .error .typeErrorNotDatetimeIndex
  | .dt ds =>
    match inferredFreq ds with
    | none => .error .valueErrorEmptyArgmax
    | some d => if ⌊d⌋ = 1 then .ok () else .error .valueErrorNotDaily

/-- A stale-value detector (`gaps.stale_values_round`, a repository module
outside the analysed sources): a positionally aligned boolean mask. -/
abbrev StaleDetector := List (Date × ℚ) → List Bool

/-- Model of `_erroneous_filter`: drop stale samples, samples `≤ 0`, and samples at
or beyond the 1st / 99th percentile of the full series. -/
def erroneous_filter (stale : StaleDetector) (s : List (Date × ℚ)) :
    List (Date × ℚ) :=
  let sm := stale s
  let vs := s.map Prod.snd
  let q01 := (quantileLinear vs (1 / 100)).getD 0
  let q99 := (quantileLinear vs (99 / 100)).getD 0
  ((s.enum.filter (fun p =>
      !(sm.getD p.1 false) && !(decide (p.2.2 ≤ 0)) &&
      !(decide (p.2.2 ≤ q01)) && !(decide (q99 ≤ p.2.2)))).map Prod.snd)

/-- Worker for `drop_duplicates`: keep an entry only when its value has not
been seen anywhere earlier in the series. -/
def dropDupAux (seen : List ℚ) : List (Date × ℚ) → List (Date × ℚ)
  | [] => []
  | p :: rest =>
    if p.2 ∈ seen then dropDupAux seen rest
    else p :: dropDupAux (p.2 :: seen) rest

/-- Model of `Series.drop_duplicates()`: keep the first occurrence of every value,
dropping all later occurrences (adjacent or not). -/
def drop_duplicates (s : List (Date × ℚ)) : List (Date × ℚ) :=
  dropDupAux [] s

/-- Min-max normalization `(x - min) / (max - min)`.  When `max = min`
(constant series) every entry is `0/0`, i.e. NaN, and pandas completes
without raising; NaN is modelled as `none`. -/
def normalizeMinMax (s : List (Date × ℚ)) : List (Date × Option ℚ) :=
  let vs := s.map Prod.snd
  let mn := minQ vs
  let mx := maxQ vs
  if mx = mn then s.map (fun p => (p.1, (none : Option ℚ)))
  else s.map (fun p => (p.1, some ((p.2 - mn) / (mx - mn))))

/-- Median of the group of a (month, day-of-month) key inside a normalized
series; pandas `median` skips NaN and yields NaN for an all-NaN group. -/
def groupMedian (norm : List (Date × Option ℚ)) (d : Date) : Option ℚ :=
  medianQ (((norm.filter (fun p =>
      p.1.month == d.month && p.1.dom == d.dom)).map Prod.snd).filterMap id)

/-- NaN-propagating subtraction. -/
def osub : Option ℚ → Option ℚ → Option ℚ
  | some a, some b => some (a - b)
  | _, _ => none

/-- The `groupby([month, day]).transform("median")` baseline subtracted from the
normalized series. -/
def remove_seasonality_step (norm : List (Date × Option ℚ)) :
    List (Date × Option ℚ) :=
  norm.map (fun p => (p.1, osub p.2 (groupMedian norm p.1)))

/-- Model of `_preprocess_data`: min-max normalize, then subtract the per-(month,
day) median when seasonality removal is requested. -/
def preprocess_data (s : List (Date × ℚ)) (removeSeasonality : Bool) :
    List (Date × Option ℚ) :=
  let norm := normalizeMinMax s
  if removeSeasonality then remove_seasonality_step norm else norm

/-- The span test of `detect_data_shifts`:
`(index.max() - index.min()).days <= 730`.  On an empty filtered series
the pandas span is NaT, whose day count compares as NaN, so the test is
false (the seasonality branch is taken). -/
def spanLe730 (s : List (Date × ℚ)) : Bool :=
  match s with
  | [] => false
  | _ :: _ =>
    decide (⌊maxQ (s.map (fun p => p.1.t)) - minQ (s.map (fun p => p.1.t))⌋
      ≤ (730 : ℤ))

/-- A ruptures search strategy class, passed by the caller as `method`. -/
inductive RptMethod where
  | bottomUp
  | window
  | binSeg
  | pelt
deriving DecidableEq, Repr

/-- A ruptures cost model, passed by the caller as `cost`. -/
inductive CostModel where
  | rbf
  | l1
  | l2
  | normal
  | cosine
  | linear
deriving DecidableEq, Repr

/-- The configuration handed to the ruptures search call: strategy class,
`model=` cost, `width=` (sliding window only) and `pen=` penalty. -/
structure SearchCfg where
  method : RptMethod
  cost : Option CostModel
  width : Option Nat
  penalty : ℚ
deriving DecidableEq, Repr

/-- The ruptures engine: `method(model=cost, ...).fit(points).predict(pen)`,
an external library modelled as a function parameter. -/
abbrev Engine := SearchCfg → List ℚ → List Nat

/-- Everything `detect_data_shifts` computes before calling the search
engine: filtered+deduplicated series, seasonality decision, preprocessed
series, NaN-dropped points and resolved search configuration. -/
structure Resolved where
  filtered : List (Date × ℚ)
  seasonality : Bool
  processed : List (Date × Option ℚ)
  points : List ℚ
  cfg : SearchCfg
deriving DecidableEq, Repr

/-- The default sliding-window configuration:
`rpt.Window(model="rbf", width=50)` with `predict(pen=30)`. -/
def winDefaultCfg : SearchCfg := ⟨.window, some .rbf, some 50, 30⟩

/-- The default bottom-up configuration: `rpt.BottomUp(model="rbf")` with
`predict(pen=40)`. -/
def buDefaultCfg : SearchCfg := ⟨.bottomUp, some .rbf, none, 40⟩

/-- Model of `detect_data_shifts` from the span branch onward, on the filtered and
deduplicated series `tsf`: decide seasonality removal from the span,
preprocess, drop NaN, and resolve the search configuration.  With
`use_default_models=False` and `method=None`, `None` is called:
`TypeError`. -/
def resolve_after_filter (tsf : List (Date × ℚ)) (useDefault : Bool)
    (method : Option RptMethod) (cost : Option CostModel) (penalty : ℚ) :
    Except PyErr Resolved :=
  let seasonality := !spanLe730 tsf
  let processed := preprocess_data tsf seasonality
  let points := (processed.map Prod.snd).filterMap id
  if seasonality && useDefault then
    .ok ⟨tsf, seasonality, processed, points, buDefaultCfg⟩
  else if !seasonality && useDefault then
    .ok ⟨tsf, seasonality, processed, points, winDefaultCfg⟩
  else
    match method with
    | none => .error .typeErrorNoneNotCallable
    | some mth => .ok ⟨tsf, seasonality, processed, points,
        ⟨mth, cost, none, penalty⟩⟩

/-- Body of `detect_data_shifts` between the data checks and the search
call.  With `filtering=False` the local `time_series_filtered` is read on
the `drop_duplicates` line before any assignment: `UnboundLocalError`. -/
def resolve_body (stale : StaleDetector) (ts : PySeries)
    (filtering useDefault : Bool) (method : Option RptMethod)
    (cost : Option CostModel) (penalty : ℚ) : Except PyErr Resolved :=
  match (if filtering then some (erroneous_filter stale ts.pairs) else none)
      with
  | none => .error .unboundLocalTimeSeriesFiltered
  | some tsf0 =>
    resolve_after_filter (drop_duplicates tsf0) useDefault method cost
      penalty

/-- Model of `detect_data_shifts` up to (and including) configuration resolution:
the data checks run first, then the body. -/
def detect_resolve (stale : StaleDetector) (ts : PySeries)
    (filtering useDefault : Bool) (method : Option RptMethod)
    (cost : Option CostModel) (penalty : ℚ) : Except PyErr Resolved :=
  match run_data_checks ts with
  | .error e => .error e
  | .ok _ => resolve_body stale ts filtering useDefault method cost penalty

/-- Model of `if len(points) in result: result.remove(len(points))` — strip the
sentinel end-of-segment marker (first occurrence, as `list.remove`). -/
def retained_result (n : Nat) (r : List Nat) : List Nat :=
  if n ∈ r then r.erase n else r

/-- Model of `mask.iloc[result] = True`: positional assignment, raising
`IndexError` when a position is out of bounds. -/
def ilocSetTrue : List (Date × Bool) → List Nat →
    Except PyErr (List (Date × Bool))
  | base, [] => .ok base
  | base, i :: rest =>
    match base.get? i with
    | none => .error .indexErrorIloc
    | some p => ilocSetTrue (base.set i (p.1, true)) rest

/-- Label lookup by timestamp into a boolean series. -/
def lookupByT (l : List (Date × Bool)) (t : ℚ) : Option Bool :=
  match l.find? (fun p => decide (p.1.t = t)) with
  | some p => some p.2
  | none => none

/-- Model of `mask.reindex(time_series.index, fill_value=False)`: align onto the
original index, filling positions with no matching timestamp with false. -/
def reindexFalse (inner : List (Date × Bool)) (idx : List Date) :
    List (Date × Bool) :=
  idx.map (fun d => (d, (lookupByT inner d.t).getD false))

/-- Mask construction and reindexing of `detect_data_shifts`, after the
search engine has produced `result`. -/
def detect_body (st : Resolved) (result : List Nat) (origIdx : List Date) :
    Except PyErr (List (Date × Bool)) :=
  let result2 := retained_result st.points.length result
  let base := st.processed.map (fun p => (p.1, false))
  match ilocSetTrue base result2 with
  | .error e => .error e
  | .ok inner => .ok (reindexFalse inner origIdx)

/-- Model of `detect_data_shifts(time_series, filtering, use_default_models, method,
cost, penalty)` with the external collaborators (`ruptures` engine, stale
detector) as function parameters. -/
def detect_data_shifts (engine : Engine) (stale : StaleDetector)
    (ts : PySeries) (filtering useDefault : Bool)
    (method : Option RptMethod) (cost : Option CostModel) (penalty : ℚ) :
    Except PyErr (List (Date × Bool)) :=
  match detect_resolve stale ts filtering useDefault method cost penalty with
  | .error e => .error e
  | .ok st => detect_body st (engine st.cfg st.points) ts.dtDates

/-- Model of `cpd_mask.cumsum()` over a boolean mask: running count of `True`
values, including the current position. -/
def cumsumAux (acc : Nat) : List (Date × Bool) → List (Date × Nat)
  | [] => []
  | p :: rest =>
    let acc2 := acc + (if p.2 then 1 else 0)
    (p.1, acc2) :: cumsumAux acc2 rest

/-- Segment ids of a shift mask. -/
def cumsumMask (mask : List (Date × Bool)) : List (Date × Nat) :=
  cumsumAux 0 mask

/-- Minimum timestamp of a date list (callers guard nonemptiness). -/
def minDateT : List Date → ℚ
  | [] => 0
  | d :: ds => ds.foldl (fun a x => min a x.t) d.t

/-- Maximum timestamp of a date list (callers guard nonemptiness). -/
def maxDateT : List Date → ℚ
  | [] => 0
  | d :: ds => ds.foldl (fun a x => max a x.t) d.t

/-- The dates of the most populated changepoint-free segment of a mask:
`interval_id = mask.cumsum()`, take the id with the most members
(`value_counts().idxmax()`) and keep its dates. -/
def longestSeg (mask : List (Date × Bool)) : List Date :=
  let ids := cumsumMask mask
  match modeFirst (ids.map Prod.snd) with
  | none => []
  | some longId => (ids.filter (fun p => p.2 == longId)).map Prod.fst

/-- Model of `get_longest_shift_segment_dates`: detect shifts, pick the longest
segment, and return its min timestamp plus the buffer and its max
timestamp minus the buffer (timestamps in days). -/
def get_longest_shift_segment_dates (engine : Engine)
    (stale : StaleDetector) (ts : PySeries) (filtering useDefault : Bool)
    (method : Option RptMethod) (cost : Option CostModel) (penalty : ℚ)
    (buffer_day_length : ℤ) : Except PyErr (ℚ × ℚ) :=
  match detect_data_shifts engine stale ts filtering useDefault method cost
      penalty with
  | .error e => .error e
  | .ok cpd_mask =>
    let ids := cumsumMask cpd_mask
    match modeFirst (ids.map Prod.snd) with
    | none => .error .valueErrorEmptyArgmax
    | some longId =>
      let seg := (ids.filter (fun p => p.2 == longId)).map Prod.fst
      .ok (minDateT seg + (buffer_day_length : ℚ),
           maxDateT seg - (buffer_day_length : ℚ))

/-! ### cumulative_energy.py -/

/-- Model of `Series.diff()` on plain values followed by `dropna()`: the list of
consecutive differences. -/
def diffDropna : List ℚ → List ℚ
  | [] => []
  | _ :: [] => []
  | a :: b :: rest => (b - a) :: diffDropna (b :: rest)

/-- Model of `Series.diff()` keeping the leading NaN (`none`). -/
def diffKeepNaN (l : List ℚ) : List (Option ℚ) :=
  match l with
  | [] => []
  | _ :: _ => none :: (diffDropna l).map some

/-- The Python guard `(len(differenced_series) < 10) | ()`: `|` between a
`bool` and an empty `tuple` raises `TypeError` unconditionally. -/
def pyBoolOrEmptyTuple (_b : Bool) : Except PyErr Bool :=
  .error .typeErrorBoolOrTuple

/-- Model of `energy_cumulative(energy_series, pct_increase_threshold)`.  The length
guard raises `TypeError` on every input, so the remainder of the body
(translated faithfully below it) is unreachable. -/
def energy_cumulative (energy_series : List ℚ)
    (pct_increase_threshold : ℚ) : Except PyErr (Option Bool) := do
  let differenced_series := diffDropna energy_series
  let guard ← pyBoolOrEmptyTuple (decide (differenced_series.length < 10))
  if guard then
    pure none
  else
    let posCount := (differenced_series.filter
      (fun x => decide (-(1 / 2 : ℚ) ≤ x))).length
    let total := differenced_series.length
    if posCount = 0 then .error .keyErrorTrue
    else if pct_increase_threshold ≤
        ((posCount : ℚ) / (total : ℚ)) * 100 then
      pure (some true)
    else
      pure (some false)

/-- Model of `correct_cumulative_energy(energy_series, pct_increase_threshold)`:
difference the series when `energy_cumulative` returned a truthy value. -/
def correct_cumulative_energy (energy_series : List ℚ)
    (pct_increase_threshold : ℚ) : Except PyErr (List (Option ℚ)) := do
  let cum_energy ← energy_cumulative energy_series pct_increase_threshold
  match cum_energy with
  | some true => pure (diffKeepNaN energy_series)
  | _ => pure (energy_series.map some)

/-! ### Concrete fixtures used by witnesses and counterexamples -/

/-- Day `n` of a daily January index. -/
def mkD (n : Nat) : Date := ⟨n, 1, n + 1⟩

/-- A stale detector flagging nothing. -/
def stale0 : StaleDetector := fun s => s.map (fun _ => false)

/-- A search engine returning no breakpoints at all. -/
def engine0 : Engine := fun _ _ => []

/-- A search engine returning breakpoint 3 plus the sentinel 8 (the
length of the processed sequence of `tsB`). -/
def engine1 : Engine := fun _ _ => [3, 8]

/-- Ten daily samples with values 1..10. -/
def tsB : PySeries :=
  ⟨.dt ((List.range 10).map mkD), (List.range 10).map (fun n => (n : ℚ) + 1)⟩

/-- Five daily samples whose filtered remainder is constant. -/
def tsC5 : PySeries := ⟨.dt ((List.range 5).map mkD), [1, 5, 5, 5, 9]⟩

/-- A series with a plain (non-datetime) index. -/
def badTs : PySeries := ⟨.nonDt 3, [1, 2, 3]⟩

/-- Five samples spaced 36 hours apart: the modal interval is 3/2 days,
whose whole-day component is 1, so the daily check passes. -/
def ts15 : PySeries :=
  ⟨.dt [⟨0, 1, 1⟩, ⟨3 / 2, 1, 2⟩, ⟨3, 1, 4⟩, ⟨9 / 2, 1, 5⟩, ⟨6, 1, 7⟩],
   [1, 5, 6, 7, 9]⟩

/-- The mask `detect_data_shifts engine1 stale0 tsB` produces: one
changepoint at the fifth day. -/
def maskB : List (Date × Bool) :=
  (List.range 10).map (fun n => (mkD n, decide (n = 4)))

/-- The all-false mask over the index of `tsB`. -/
def maskBfalse : List (Date × Bool) := (List.range 10).map (fun n => (mkD n, false))

/-- The all-false mask over the index of `ts15`. -/
def mask15 : List (Date × Bool) :=
  [(⟨0, 1, 1⟩, false), (⟨3 / 2, 1, 2⟩, false), (⟨3, 1, 4⟩, false),
   (⟨9 / 2, 1, 5⟩, false), (⟨6, 1, 7⟩, false)]

/-- The all-false mask over the index of `tsC5`. -/
def maskC5 : List (Date × Bool) := (List.range 5).map (fun n => (mkD n, false))

/-- The `Resolved` state `detect_resolve stale0 tsB true true none none 40`
produces: days 1..8 survive the percentile filter, the span is 7 days, so
the sliding-window defaults are selected without seasonality removal. -/
def stB : Resolved :=
  ⟨(List.range 8).map (fun n => (mkD (n + 1), (n : ℚ) + 2)),
   false,
   (List.range 8).map (fun n => (mkD (n + 1), some ((n : ℚ) / 7))),
   (List.range 8).map (fun n => ((n : ℚ) / 7)),
   winDefaultCfg⟩

/-- What `_run_data_checks` does, written as a single expression over the
index: `TypeError` for a non-datetime index, else `ValueError` unless the
modal interval has whole-day component 1 (with `idxmax` raising
`ValueError` itself when there is no interval to take the mode of). -/
def expected_checks (ts : PySeries) : Except PyErr Unit :=
  match ts.idx with
  | .nonDt _ => .error .typeErrorNotDatetimeIndex
  | .dt ds =>
    if freq_ok ds then .ok ()
    else .error (match inferredFreq ds with
      | none => .valueErrorEmptyArgmax
      | some _ => .valueErrorNotDaily)

/-! ### Helper lemmas -/

theorem run_ok_dt {ts : PySeries} (h : run_data_checks ts = .ok ()) :
    ∃ ds, ts.idx = .dt ds := by
  unfold run_data_checks at h
  match hidx : ts.idx with
  | .nonDt n => rw [hidx] at h; exact absurd h (by simp)
  | .dt ds => exact ⟨ds, rfl⟩

theorem run_err_precondition {ts : PySeries} {e : PyErr}
    (h : run_data_checks ts = .error e) : e.isPrecondition = true := by
  unfold run_data_checks at h
  split at h
  · cases h; rfl
  · split at h
    · cases h; rfl
    · split at h
      · cases h
      · cases h; rfl

theorem resolve_after_ok {tsf : List (Date × ℚ)} {ud : Bool}
    {m : Option RptMethod} {c : Option CostModel} {p : ℚ} {st : Resolved}
    (h : resolve_after_filter tsf ud m c p = .ok st) :
    st.filtered = tsf ∧
    st.seasonality = !spanLe730 tsf ∧
    st.processed = preprocess_data tsf st.seasonality ∧
    st.points = (st.processed.map Prod.snd).filterMap id ∧
    (ud = true → st.cfg =
      (if spanLe730 tsf then winDefaultCfg else buDefaultCfg)) := by
  unfold resolve_after_filter at h
  cases hs : spanLe730 tsf <;> rw [hs] at h <;> cases ud <;>
      simp only [Bool.not_false, Bool.not_true, Bool.true_and,
        Bool.false_and, Bool.and_false, Bool.and_true, if_true, if_false,
        Bool.not_eq_true] at h
  · match m with
    | none => cases h
    | some mth => cases h; simp [hs]
  · cases h; simp [hs]
  · match m with
    | none => cases h
    | some mth => cases h; simp [hs]
  · cases h; simp [hs]

theorem resolve_body_false {stale : StaleDetector} {ts : PySeries}
    {ud : Bool} {m : Option RptMethod} {c : Option CostModel} {p : ℚ} :
    resolve_body stale ts false ud m c p =
      .error .unboundLocalTimeSeriesFiltered := rfl

theorem resolve_body_true {stale : StaleDetector} {ts : PySeries}
    {ud : Bool} {m : Option RptMethod} {c : Option CostModel} {p : ℚ} :
    resolve_body stale ts true ud m c p =
      resolve_after_filter (drop_duplicates (erroneous_filter stale
        ts.pairs)) ud m c p := rfl

theorem resolve_ok_spec {stale : StaleDetector} {ts : PySeries}
    {f ud : Bool} {m : Option RptMethod} {c : Option CostModel} {p : ℚ}
    {st : Resolved}
    (h : detect_resolve stale ts f ud m c p = .ok st) :
    run_data_checks ts = .ok () ∧ f = true ∧
    st.filtered = drop_duplicates (erroneous_filter stale ts.pairs) ∧
    st.seasonality = !spanLe730 st.filtered ∧
    st.processed = preprocess_data st.filtered st.seasonality ∧
    st.points = (st.processed.map Prod.snd).filterMap id ∧
    (ud = true → st.cfg =
      (if spanLe730 st.filtered then winDefaultCfg else buDefaultCfg)) := by
  unfold detect_resolve at h
  split at h
  · cases h
  · rename_i u hr
    cases u
    cases f
    · rw [resolve_body_false] at h
      cases h
    · rw [resolve_body_true] at h
      have hspec := resolve_after_ok h
      refine ⟨?_, rfl, ?_, ?_, ?_, ?_, ?_⟩
      · exact hr
      · exact hspec.1
      · rw [hspec.1]; exact hspec.2.1
      · rw [hspec.1]; exact hspec.2.2.1
      · exact hspec.2.2.2.1
      · rw [hspec.1]; exact hspec.2.2.2.2

theorem resolve_body_err {stale : StaleDetector} {ts : PySeries}
    {f ud : Bool} {m : Option RptMethod} {c : Option CostModel} {p : ℚ}
    {e : PyErr}
    (h : resolve_body stale ts f ud m c p = .error e) :
    e.isPrecondition = false := by
  cases f
  · rw [resolve_body_false] at h
    cases h
    rfl
  · rw [resolve_body_true] at h
    unfold resolve_after_filter at h
    cases hs : spanLe730 (drop_duplicates (erroneous_filter stale ts.pairs))
        <;> rw [hs] at h <;> cases ud <;>
        simp only [Bool.not_false, Bool.not_true, Bool.true_and,
          Bool.false_and, Bool.and_false, Bool.and_true, if_true, if_false,
          Bool.not_eq_true] at h
    · match m with
      | none => cases h; rfl
      | some mth => cases h
    · cases h
    · match m with
      | none => cases h; rfl
      | some mth => cases h
    · cases h

theorem ilocSetTrue_err {e : PyErr} :
    ∀ (r : List Nat) (base : List (Date × Bool)),
    ilocSetTrue base r = .error e → e = .indexErrorIloc := by
  intro r
  induction r with
  | nil => intro base h; cases h
  | cons i rest ih =>
    intro base h
    unfold ilocSetTrue at h
    split at h
    · cases h; rfl
    · exact ih _ h

theorem detect_body_err {st : Resolved} {r : List Nat} {idx : List Date}
    {e : PyErr} (h : detect_body st r idx = .error e) :
    e = .indexErrorIloc := by
  unfold detect_body at h
  simp only [] at h
  split at h
  · rename_i e2 hi
    cases h
    exact ilocSetTrue_err _ _ hi
  · cases h

theorem dropDupAux_sublist (seen : List ℚ) (l : List (Date × ℚ)) :
    List.Sublist (dropDupAux seen l) l := by
  induction l generalizing seen with
  | nil => exact List.Sublist.refl []
  | cons p rest ih =>
    unfold dropDupAux
    by_cases hp : p.2 ∈ seen
    · rw [if_pos hp]
      exact (ih seen).trans (List.sublist_cons_self p rest)
    · rw [if_neg hp]
      exact List.Sublist.cons₂ p (ih (p.2 :: seen))

theorem dropDupAux_vals_nodup (seen : List ℚ) (l : List (Date × ℚ)) :
    ((dropDupAux seen l).map Prod.snd).Nodup ∧
    ∀ v ∈ (dropDupAux seen l).map Prod.snd, v ∉ seen := by
  induction l generalizing seen with
  | nil =>
    constructor
    · exact List.nodup_nil
    · intro v hv
      cases hv
  | cons p rest ih =>
    unfold dropDupAux
    by_cases hp : p.2 ∈ seen
    · rw [if_pos hp]
      exact ih seen
    · rw [if_neg hp]
      obtain ⟨ihn, ihs⟩ := ih (p.2 :: seen)
      constructor
      · simp only [List.map_cons]
        refine List.nodup_cons.mpr ⟨?_, ihn⟩
        intro hmem
        exact (ihs p.2 hmem) (List.mem_cons_self p.2 seen)
      · intro v hv
        simp only [List.map_cons, List.mem_cons] at hv
        cases hv with
        | inl hvp => exact hvp ▸ hp
        | inr hvr =>
          intro hvseen
          exact (ihs v hvr) (List.mem_cons_of_mem _ hvseen)

theorem dropDupAux_covers (seen : List ℚ) (l : List (Date × ℚ)) :
    ∀ q ∈ l, q.2 ∉ seen → ∃ q2 ∈ dropDupAux seen l, q2.2 = q.2 := by
  induction l generalizing seen with
  | nil =>
    intro q hq
    cases hq
  | cons p rest ih =>
    intro q hq hqs
    unfold dropDupAux
    by_cases hp : p.2 ∈ seen
    · rw [if_pos hp]
      cases List.mem_cons.mp hq with
      | inl h => exact absurd (by rw [h]; exact hp) hqs
      | inr h => exact ih seen q h hqs
    · rw [if_neg hp]
      cases List.mem_cons.mp hq with
      | inl h => exact ⟨p, List.mem_cons_self _ _, by rw [h]⟩
      | inr h =>
        by_cases hv : q.2 = p.2
        · exact ⟨p, List.mem_cons_self _ _, hv.symm⟩
        · have hq2 : q.2 ∉ p.2 :: seen := by
            intro hmem
            cases List.mem_cons.mp hmem with
            | inl hh => exact hv hh
            | inr hh => exact hqs hh
          obtain ⟨q2, hq2m, hq2v⟩ := ih (p.2 :: seen) q h hq2
          exact ⟨q2, List.mem_cons_of_mem _ hq2m, hq2v⟩

/-! ### Claim theorems -/

/-- C10: `energy_cumulative` evaluates `(len(differenced_series) < 10) | ()`,
which applies `|` to a `bool` and an empty tuple and therefore raises
`TypeError` on every input; consequently `correct_cumulative_energy`
raises on every input as well and can never return a series. -/
theorem energy_cumulative_always_type_error :
    ∀ (es : List ℚ) (pct : ℚ),
    energy_cumulative es pct = .error .typeErrorBoolOrTuple ∧
    correct_cumulative_energy es pct = .error .typeErrorBoolOrTuple := by
  intro es pct
  exact ⟨rfl, rfl⟩

/-- C9 (amended): for every input series that passes the data checks,
calling `detect_data_shifts` with `filtering=False` raises
`UnboundLocalError` before any detection (the filtered-series local is
only assigned inside the filtering branch); inputs failing the checks
raise the check error instead, so no input returns a mask with
`filtering=False`. -/
theorem detect_no_filtering_unbound :
    ∀ (engine : Engine) (stale : StaleDetector) (ts : PySeries)
    (ud : Bool) (m : Option RptMethod) (c : Option CostModel) (p : ℚ),
    run_data_checks ts = .ok () →
    detect_data_shifts engine stale ts false ud m c p =
      .error .unboundLocalTimeSeriesFiltered := by
  intro engine stale ts ud m c p h
  unfold detect_data_shifts detect_resolve resolve_body
  rw [h]
  rfl

/-- C9 witness: on a well-formed daily series the checks pass and
`filtering=False` indeed ends in `UnboundLocalError`. -/
theorem detect_no_filtering_unbound_witness :
    detect_data_shifts engine0 stale0 tsB false true none none 40 =
      .error .unboundLocalTimeSeriesFiltered :=
  detect_no_filtering_unbound engine0 stale0 tsB true none none 40
    (by decide)

/-- C9 counterexample: with a non-datetime index and `filtering=False`
the function raises `TypeError` from the data checks, not the
unbound-variable error the claim asserts for every input. -/
theorem detect_no_filtering_type_error_first :
    detect_data_shifts engine0 stale0 badTs false true none none 40 =
      .error .typeErrorNotDatetimeIndex ∧
    decide (PyErr.typeErrorNotDatetimeIndex =
      PyErr.unboundLocalTimeSeriesFiltered) = false :=
  ⟨by decide, by decide⟩

/-- C5 (amended): when the filtered series is constant (`max == min`),
min-max normalization completes without raising: every entry is `0/0`,
i.e. NaN, and these NaN values are dropped before the changepoint
search instead of an error being raised. -/
theorem normalize_constant_series_nan :
    ∀ (s : List (Date × ℚ)),
    maxQ (s.map Prod.snd) = minQ (s.map Prod.snd) →
    normalizeMinMax s = s.map (fun p => (p.1, (none : Option ℚ))) := by
  intro s h
  unfold normalizeMinMax
  rw [if_pos h]

/-- C5 witness: normalization of the concrete constant series `[5]`
yields NaN. -/
theorem normalize_constant_series_nan_witness :
    normalizeMinMax [(mkD 1, 5)] = [(mkD 1, (none : Option ℚ))] :=
  normalize_constant_series_nan [(mkD 1, 5)] (by decide)

/-- C5 counterexample: on a series whose filtered remainder is the
constant `[5, 5, 5]` (deduplicated to `[5]`), the detector completes,
returning an all-false mask: normalization produced NaN, not a
division-by-zero error. -/
theorem normalize_constant_no_error :
    detect_data_shifts engine0 stale0 tsC5 true true none none 40 =
      .ok maskC5 ∧
    normalizeMinMax [(mkD 1, 5)] = [(mkD 1, (none : Option ℚ))] :=
  ⟨by decide, by decide⟩

/-- C4: whenever the engine output satisfies the ChangepointSet contract
the spec states for it (strictly increasing positions, hence no
duplicates, and never containing 0), the retained result used to build
the mask contains neither position 0 nor the sentinel position
`len(points)`, which is removed before mask construction. -/
theorem sentinel_and_zero_stripped :
    ∀ (engine : Engine) (stale : StaleDetector) (ts : PySeries)
    (f ud : Bool) (m : Option RptMethod) (c : Option CostModel) (p : ℚ)
    (st : Resolved),
    detect_resolve stale ts f ud m c p = .ok st →
    (engine st.cfg st.points).Nodup →
    decide (0 ∈ engine st.cfg st.points) = false →
    decide (0 ∈ retained_result st.points.length
      (engine st.cfg st.points)) = false ∧
    decide (st.points.length ∈ retained_result st.points.length
      (engine st.cfg st.points)) = false := by
  intro engine stale ts f ud m c p st hres hnd h0
  have h0m : 0 ∉ engine st.cfg st.points := of_decide_eq_false h0
  constructor
  · apply decide_eq_false
    intro hmem
    unfold retained_result at hmem
    by_cases hin : st.points.length ∈ engine st.cfg st.points
    · rw [if_pos hin] at hmem
      exact h0m (List.mem_of_mem_erase hmem)
    · rw [if_neg hin] at hmem
      exact h0m hmem
  · apply decide_eq_false
    intro hmem
    unfold retained_result at hmem
    by_cases hin : st.points.length ∈ engine st.cfg st.points
    · rw [if_pos hin] at hmem
      exact ((List.Nodup.mem_erase_iff hnd).mp hmem).1 rfl
    · rw [if_neg hin] at hmem
      exact hin hmem

/-- C4 witness: on the ten-day series with an engine returning `[3, 8]`
(8 being the processed length, i.e. the sentinel), the retained result
contains neither 0 nor 8. -/
theorem sentinel_and_zero_stripped_witness :
    decide (0 ∈ retained_result stB.points.length
      (engine1 stB.cfg stB.points)) = false ∧
    decide (stB.points.length ∈ retained_result stB.points.length
      (engine1 stB.cfg stB.points)) = false :=
  sentinel_and_zero_stripped engine1 stale0 tsB true true none none 40 stB
    (by decide) (by decide) (by decide)

/-- C2 (amended): `detect_data_shifts` validates before any processing:
any error of `_run_data_checks` propagates unchanged (for every value of
`filtering`); the checks raise `TypeError` exactly for a non-datetime
index and `ValueError` exactly when the modal sampling interval does not
exist or has whole-day component (`Timedelta.days`) different from 1;
and no input passing the checks ever produces one of those two errors. -/
theorem checks_fail_fast :
    ∀ (engine : Engine) (stale : StaleDetector) (ts : PySeries)
    (f ud : Bool) (m : Option RptMethod) (c : Option CostModel) (p : ℚ),
    (∀ e, run_data_checks ts = .error e →
      detect_data_shifts engine stale ts f ud m c p = .error e) ∧
    run_data_checks ts = expected_checks ts ∧
    ((match detect_data_shifts engine stale ts f ud m c p with
      | .error e => e.isPrecondition
      | .ok _ => false) =
     (match run_data_checks ts with
      | .error _ => true
      | .ok _ => false)) := by
  intro engine stale ts f ud m c p
  refine ⟨?_, ?_, ?_⟩
  · intro e he
    unfold detect_data_shifts detect_resolve
    rw [he]
  · obtain ⟨idx, vals⟩ := ts
    cases idx with
    | nonDt n => rfl
    | dt ds =>
      simp only [run_data_checks, expected_checks]
      cases hf : inferredFreq ds with
      | none => simp [freq_ok, hf]
      | some d =>
        simp only [freq_ok, hf]
        by_cases hd : ⌊d⌋ = 1 <;> simp [hd]
  · match hd : detect_data_shifts engine stale ts f ud m c p with
    | .error e =>
      match hr : run_data_checks ts with
      | .error e2 =>
        have : detect_data_shifts engine stale ts f ud m c p = .error e2 := by
          unfold detect_data_shifts detect_resolve
          rw [hr]
        rw [hd] at this
        cases this
        exact run_err_precondition hr
      | .ok u =>
        cases u
        unfold detect_data_shifts at hd
        unfold detect_resolve at hd
        rw [hr] at hd
        match hb : resolve_body stale ts f ud m c p with
        | .error e3 =>
          rw [hb] at hd
          cases hd
          exact resolve_body_err hb
        | .ok st =>
          rw [hb] at hd
          exact (detect_body_err hd) ▸ rfl
    | .ok mask =>
      match hr : run_data_checks ts with
      | .error e2 =>
        have : detect_data_shifts engine stale ts f ud m c p = .error e2 := by
          unfold detect_data_shifts detect_resolve
          rw [hr]
        rw [hd] at this
        cases this
      | .ok u => rfl

/-- C2 witness: on the non-datetime-indexed series the check error is
`TypeError` and it propagates unchanged out of `detect_data_shifts`. -/
theorem checks_fail_fast_witness :
    detect_data_shifts engine0 stale0 badTs true true none none 40 =
      .error .typeErrorNotDatetimeIndex :=
  (checks_fail_fast engine0 stale0 badTs true true none none 40).1
    .typeErrorNotDatetimeIndex (by decide)

/-- C2 counterexample: a series sampled every 36 hours has modal interval
3/2 days, which is not exactly one day, yet `detect_data_shifts`
completes without error because the code only compares the whole-day
component `.days` with 1. -/
theorem freq_check_passes_36h :
    inferredFreq ts15.dtDates = some (3 / 2) ∧
    decide ((3 / 2 : ℚ) = 1) = false ∧
    detect_data_shifts engine0 stale0 ts15 true true none none 40 =
      .ok mask15 :=
  ⟨by decide, by decide, by decide⟩

/-- C3: with `filtering=True` and `use_default_models=True` the resolved
configuration depends only on the span test over the filtered series:
span of at most 730 days selects the sliding window with radial basis
cost, width 50 and penalty 30 and no seasonality removal; a longer span
selects bottom-up with radial basis cost and penalty 40 and engages
seasonality removal, which subtracts the per-(month, day) group median
from the normalized series. -/
theorem default_policy :
    ∀ (stale : StaleDetector) (ts : PySeries) (m : Option RptMethod)
    (c : Option CostModel) (p : ℚ) (st : Resolved),
    detect_resolve stale ts true true m c p = .ok st →
    st.seasonality = !spanLe730 st.filtered ∧
    st.cfg =
      (if spanLe730 st.filtered then winDefaultCfg else buDefaultCfg) ∧
    st.processed = preprocess_data st.filtered st.seasonality ∧
    preprocess_data st.filtered true =
      remove_seasonality_step (normalizeMinMax st.filtered) ∧
    preprocess_data st.filtered false = normalizeMinMax st.filtered := by
  intro stale ts m c p st h
  have hs := resolve_ok_spec h
  exact ⟨hs.2.2.2.1, hs.2.2.2.2.2.2 rfl, hs.2.2.2.2.1, rfl, rfl⟩

/-- C3 witness: the concrete ten-day series has a 7-day span, so the
sliding-window defaults are selected and seasonality removal is off. -/
theorem default_policy_witness :
    stB.cfg =
      (if spanLe730 stB.filtered then winDefaultCfg else buDefaultCfg) ∧
    stB.seasonality = !spanLe730 stB.filtered := by
  have h := default_policy stale0 tsB none none 40 stB (by decide)
  exact ⟨h.2.1, h.1⟩

/-- C8 (amended): before the search, the filtered series is deduplicated
by value globally (`Series.drop_duplicates`): the sequence handed onward
keeps the first occurrence of every value and contains no value twice,
even when the repeats are not adjacent; it is a subsequence of the
filtered series covering every filtered value. -/
theorem dedup_drops_all_value_repeats :
    ∀ (stale : StaleDetector) (ts : PySeries) (f ud : Bool)
    (m : Option RptMethod) (c : Option CostModel) (p : ℚ) (st : Resolved),
    detect_resolve stale ts f ud m c p = .ok st →
    st.filtered = drop_duplicates (erroneous_filter stale ts.pairs) ∧
    (st.filtered.map Prod.snd).Nodup ∧
    List.Sublist st.filtered (erroneous_filter stale ts.pairs) ∧
    ∀ q ∈ erroneous_filter stale ts.pairs,
      ∃ q2 ∈ st.filtered, q2.2 = q.2 := by
  intro stale ts f ud m c p st h
  have hf := (resolve_ok_spec h).2.2.1
  refine ⟨hf, ?_, ?_, ?_⟩
  · rw [hf]
    unfold drop_duplicates
    exact (dropDupAux_vals_nodup [] _).1
  · rw [hf]
    unfold drop_duplicates
    exact dropDupAux_sublist [] _
  · intro q hq
    rw [hf]
    unfold drop_duplicates
    refine dropDupAux_covers [] _ q hq ?_
    intro hmem
    cases hmem

/-- C8 witness: instantiated on the concrete ten-day series. -/
theorem dedup_drops_all_value_repeats_witness :
    (stB.filtered.map Prod.snd).Nodup ∧
    List.Sublist stB.filtered (erroneous_filter stale0 tsB.pairs) := by
  have h := dedup_drops_all_value_repeats stale0 tsB true true none none 40
    stB (by decide)
  exact ⟨h.2.1, h.2.2.1⟩

/-- C8 counterexample: the value 1 recurs non-adjacently (values 1, 2,
1), yet `drop_duplicates` removes the second occurrence: the claim that
only adjacent repeats are removed fails. -/
theorem dedup_nonadjacent_dropped :
    drop_duplicates [(mkD 0, 1), (mkD 1, 2), (mkD 2, 1)] =
      [(mkD 0, 1), (mkD 1, 2)] ∧
    decide ((mkD 2, (1 : ℚ)) ∈
      drop_duplicates [(mkD 0, 1), (mkD 1, 2), (mkD 2, 1)]) = false :=
  ⟨by decide, by decide⟩

theorem reindexFalse_map_fst (inner : List (Date × Bool))
    (idx : List Date) : (reindexFalse inner idx).map Prod.fst = idx := by
  unfold reindexFalse
  rw [List.map_map]
  exact List.map_id _

theorem reindexFalse_length (inner : List (Date × Bool)) (idx : List Date) :
    (reindexFalse inner idx).length = idx.length := by
  unfold reindexFalse
  exact List.length_map _ _

theorem cumsumAux_length (l : List (Date × Bool)) :
    ∀ acc, (cumsumAux acc l).length = l.length := by
  induction l with
  | nil => intro acc; rfl
  | cons p rest ih =>
    intro acc
    unfold cumsumAux
    simp only [List.length_cons, ih]

theorem cumsumMask_length (l : List (Date × Bool)) :
    (cumsumMask l).length = l.length :=
  cumsumAux_length l 0

theorem bestOf_isSome {α : Type} (count : α → Nat) (l : List α)
    (h : l ≠ []) : ∃ x, bestOf count l = some x := by
  match l with
  | [] => exact absurd rfl h
  | x :: xs =>
    unfold bestOf
    cases hb : bestOf count xs with
    | none => exact ⟨x, rfl⟩
    | some y =>
      by_cases h2 : count y > count x
      · refine ⟨y, ?_⟩
        show (if count y > count x then some y else some x) = some y
        rw [if_pos h2]
      · refine ⟨x, ?_⟩
        show (if count y > count x then some y else some x) = some x
        rw [if_neg h2]

theorem modeFirst_isSome {α : Type} [DecidableEq α] (l : List α)
    (h : l ≠ []) : ∃ x, modeFirst l = some x :=
  bestOf_isSome _ l h

theorem bestOf_const {α : Type} (count : α → Nat) (c : α) :
    ∀ l : List α, (∀ x ∈ l, x = c) →
    l = [] ∨ bestOf count l = some c := by
  intro l
  induction l with
  | nil => intro _; exact Or.inl rfl
  | cons x xs ih =>
    intro hall
    right
    have hx : x = c := hall x (List.mem_cons_self _ _)
    subst hx
    have ih2 := ih (fun z hz => hall z (List.mem_cons_of_mem _ hz))
    unfold bestOf
    cases ih2 with
    | inl hnil =>
      rw [hnil]
      rfl
    | inr hsome =>
      rw [hsome]
      show (if count x > count x then some x else some x) = some x
      rw [if_neg (lt_irrefl _)]

theorem modeFirst_const {α : Type} [DecidableEq α] (l : List α) (c : α)
    (hne : l ≠ []) (hall : ∀ x ∈ l, x = c) : modeFirst l = some c := by
  unfold modeFirst
  cases bestOf_const (fun a => l.count a) c l hall with
  | inl h => exact absurd h hne
  | inr h => exact h

theorem cumsumAux_allfalse (l : List (Date × Bool))
    (hall : ∀ q ∈ l, q.2 = false) :
    ∀ acc, cumsumAux acc l = l.map (fun q => (q.1, acc)) := by
  induction l with
  | nil => intro acc; rfl
  | cons p rest ih =>
    intro acc
    have hp : p.2 = false := hall p (List.mem_cons_self _ _)
    have ih2 := ih (fun q hq => hall q (List.mem_cons_of_mem _ hq)) acc
    unfold cumsumAux
    simp [hp, ih2]

/-- C1: every mask returned by `detect_data_shifts` has exactly the
original index (hence, for a well-formed series, the original length): it
is the mask on the processed dates with `true` at each retained
breakpoint, reindexed onto the pre-filter index, and every original date
with no matching processed date carries `false`. -/
theorem detect_mask_alignment :
    ∀ (engine : Engine) (stale : StaleDetector) (ts : PySeries)
    (f ud : Bool) (m : Option RptMethod) (c : Option CostModel) (p : ℚ)
    (mask : List (Date × Bool)),
    ts.WF →
    detect_data_shifts engine stale ts f ud m c p = .ok mask →
    mask.map Prod.fst = ts.dtDates ∧
    mask.length = ts.vals.length ∧
    ∃ st inner,
      detect_resolve stale ts f ud m c p = .ok st ∧
      ilocSetTrue (st.processed.map (fun q => (q.1, false)))
        (retained_result st.points.length (engine st.cfg st.points)) =
        .ok inner ∧
      mask = reindexFalse inner ts.dtDates ∧
      ∀ d ∈ ts.dtDates, lookupByT inner d.t = none → (d, false) ∈ mask := by
  intro engine stale ts f ud m c p mask hwf hd
  unfold detect_data_shifts at hd
  split at hd
  · cases hd
  · rename_i st hres
    unfold detect_body at hd
    simp only [] at hd
    split at hd
    · cases hd
    · rename_i inner hiloc
      cases hd
      refine ⟨reindexFalse_map_fst _ _, ?_,
        st, inner, hres, hiloc, rfl, ?_⟩
      · rw [reindexFalse_length]
        obtain ⟨ds, hds⟩ := run_ok_dt (resolve_ok_spec hres).1
        obtain ⟨idx, vals⟩ := ts
        cases hds
        exact hwf
      · intro d hdm hlook
        refine List.mem_map.mpr ⟨d, hdm, ?_⟩
        simp [hlook]

/-- C1 witness: on the concrete ten-day series the returned mask carries
the original index and length. -/
theorem detect_mask_alignment_witness :
    maskB.map Prod.fst = tsB.dtDates ∧
    maskB.length = tsB.vals.length := by
  have h := detect_mask_alignment engine1 stale0 tsB true true none none 40
    maskB (by decide) (by decide)
  exact ⟨h.1, h.2.1⟩

/-- C6: `get_longest_shift_segment_dates` numbers segments by the
cumulative sum of the shift mask, selects the id with the most members,
and returns the minimum date of that segment plus the buffer and its maximum
date minus the buffer. -/
theorem longest_segment_dates :
    ∀ (engine : Engine) (stale : StaleDetector) (ts : PySeries)
    (f ud : Bool) (m : Option RptMethod) (c : Option CostModel) (p : ℚ)
    (b : ℤ) (mask : List (Date × Bool)),
    detect_data_shifts engine stale ts f ud m c p = .ok mask →
    mask ≠ [] →
    get_longest_shift_segment_dates engine stale ts f ud m c p b =
      .ok (minDateT (longestSeg mask) + (b : ℚ),
           maxDateT (longestSeg mask) - (b : ℚ)) := by
  intro engine stale ts f ud m c p b mask hdet hne
  have hnil : (cumsumMask mask).map Prod.snd ≠ [] := by
    intro hn
    have h1 : cumsumMask mask = [] := List.map_eq_nil_iff.mp hn
    have h2 := cumsumMask_length mask
    rw [h1] at h2
    exact hne (List.length_eq_zero.mp h2.symm)
  obtain ⟨L, hL⟩ := modeFirst_isSome _ hnil
  unfold get_longest_shift_segment_dates longestSeg
  simp only [hdet, hL]

/-- C6 witness: on the ten-day series with one changepoint at the fifth
day, the longest segment is days 4..9 and the buffered bounds follow. -/
theorem longest_segment_dates_witness :
    get_longest_shift_segment_dates engine1 stale0 tsB true true none none
      40 7 =
      .ok (minDateT (longestSeg maskB) + ((7 : ℤ) : ℚ),
           maxDateT (longestSeg maskB) - ((7 : ℤ) : ℚ)) :=
  longest_segment_dates engine1 stale0 tsB true true none none 40 7 maskB
    (by decide) (by decide)

/-- C7 (amended): when no changepoint is detected (all-false mask), the
longest segment is the whole series, and the buffer is still applied:
the returned bounds are the index minimum plus the buffer and the index
maximum minus the buffer, not the unmodified span. -/
theorem allfalse_mask_buffered_span :
    ∀ (engine : Engine) (stale : StaleDetector) (ts : PySeries)
    (f ud : Bool) (m : Option RptMethod) (c : Option CostModel) (p : ℚ)
    (b : ℤ) (mask : List (Date × Bool)),
    detect_data_shifts engine stale ts f ud m c p = .ok mask →
    mask ≠ [] →
    (∀ q ∈ mask, q.2 = false) →
    get_longest_shift_segment_dates engine stale ts f ud m c p b =
      .ok (minDateT (mask.map Prod.fst) + (b : ℚ),
           maxDateT (mask.map Prod.fst) - (b : ℚ)) := by
  intro engine stale ts f ud m c p b mask hdet hne hall
  have hcs : cumsumMask mask = mask.map (fun q => (q.1, 0)) :=
    cumsumAux_allfalse mask hall 0
  have hmap : (cumsumMask mask).map Prod.snd = mask.map (fun _ => 0) := by
    rw [hcs, List.map_map]
    rfl
  have hmode : modeFirst ((cumsumMask mask).map Prod.snd) =
      some 0 := by
    apply modeFirst_const
    · rw [hmap]
      intro hnil
      exact hne (List.map_eq_nil_iff.mp hnil)
    · rw [hmap]
      intro x hx
      obtain ⟨a, _, hax⟩ := List.mem_map.mp hx
      exact hax.symm
  have hfil : (cumsumMask mask).filter (fun p => p.2 == 0) =
      cumsumMask mask := by
    apply List.filter_eq_self.mpr
    intro a ha
    rw [hcs] at ha
    obtain ⟨q, _, rfl⟩ := List.mem_map.mp ha
    rfl
  unfold get_longest_shift_segment_dates
  simp only [hdet, hmode, hfil]
  rw [hcs, List.map_map]
  rfl

/-- C7 witness: on the ten-day series with no detected changepoints, the
result is the buffered whole span. -/
theorem allfalse_mask_buffered_span_witness :
    get_longest_shift_segment_dates engine0 stale0 tsB true true none none
      40 7 =
      .ok (minDateT (maskBfalse.map Prod.fst) + ((7 : ℤ) : ℚ),
           maxDateT (maskBfalse.map Prod.fst) - ((7 : ℤ) : ℚ)) :=
  allfalse_mask_buffered_span engine0 stale0 tsB true true none none 40 7
    maskBfalse (by decide) (by decide) (by decide)

/-- C7 counterexample: the ten-day series (days 0..9) with no detected
changepoints returns (7, 2), i.e. min+7 and max-7, not the unmodified
span (0, 9) the claim asserts. -/
theorem no_shift_span_still_buffered :
    get_longest_shift_segment_dates engine0 stale0 tsB true true none none
      40 7 = .ok (7, 2) ∧
    decide ((((7 : ℚ), (2 : ℚ)) : ℚ × ℚ) = ((0 : ℚ), (9 : ℚ))) = false :=
  ⟨by decide, by decide⟩

end PVAnalytics
